import Mathlib

/-!
Shallow embedding of the Poppy journey-planner core (`main.go` of the
repository) and proofs of the specification's claims about it.

Modelling conventions:
* Go `float64` values are modelled as real numbers (`ℝ`); Go `int` as `ℤ`.
* Go nil-able pointers (`*GeoZone`) are modelled as `Option`.
* A fallible computation (`calculateCost`, which returns `(*JourneyPlan,
  error)`) is modelled as `Except String JourneyPlan`; a `*JourneyPlan`
  that may be nil (`calculateCostForModel`, `findClosestVehicle`) as
  `Option`.
* The polygons of the external `orb` geometry library are not part of this
  repository; a polygon is abstracted by its planar containment test
  (`planar.PolygonContains`), which is the only operation `main.go` uses.
* The unused `startTime` and `endTime` fields of `TripLeg` (Go
  `time.Time`) are omitted: the core never reads them.
-/

namespace Poppy

noncomputable section

/-- `Location` from `main.go` lines 23-26. -/
structure Location where
  lat : ℝ
  lng : ℝ

/-- `Model` from `main.go` lines 44-50. -/
structure Model where
  type : String
  make : String
  name : String
  energy : String
  tier : String

/-- `Vehicle` from `main.go` lines 28-42. -/
structure Vehicle where
  uuid : String
  plate : String
  locationLatitude : ℝ
  locationLongitude : ℝ
  model : Model
  autonomy : ℝ
  autonomyPercentage : ℝ
  discountAmount : ℤ
  pictureURL : String
  isElligibleForFueling : Bool
  isElligibleForCharging : Bool
  fuelingReward : ℤ
  chargingReward : ℤ

/-- `PricingModel` from `main.go` lines 52-67. -/
structure PricingModel where
  uuid : String
  tier : String
  modelType : String
  unlockFee : ℤ
  minutePrice : ℤ
  pauseUnitPrice : ℤ
  kilometerPrice : ℤ
  bookUnitPrice : ℤ
  hourCapPrice : ℤ
  dayCapPrice : ℤ
  includedKilometers : ℤ
  type : String
  moveUnitPrice : ℤ
  overKilometerPrice : ℤ

/-- `PricingResponse` from `main.go` lines 69-73. -/
structure PricingResponse where
  pricingPerMinute : PricingModel
  pricingPerKilometer : PricingModel
  smartPricing : PricingModel

/-- `orb.Point` (longitude first, latitude second, as in `main.go` line 283). -/
abbrev Point : Type := ℝ × ℝ

/-- An `orb.Polygon` of the external geometry library, abstracted by its
planar containment test (`planar.PolygonContains`), the only operation the
repository applies to it. -/
structure Polygon where
  contains : Point → Bool

/-- `planar.PolygonContains` of the external orb library, as used on
`main.go` lines 289 and 294. -/
def polygonContains (polygon : Polygon) (point : Point) : Bool :=
  polygon.contains point

/-- The geometry cases distinguished by the switch in `main.go` lines
287-298: `orb.Polygon`, `orb.MultiPolygon`, and every other geometry type
(which falls through the switch unmatched). -/
inductive OrbGeom : Type where
  | polygon (poly : Polygon)
  | multiPolygon (polys : List Polygon)
  | other

/-- `GeoFeature` from `main.go` lines 81-84. -/
structure GeoFeature where
  type : String
  geometry : OrbGeom

/-- `GeoZoneItem` from `main.go` lines 75-79. -/
structure GeoZoneItem where
  geofencingType : String
  modelType : String
  geom : GeoFeature

/-- `GeoZone` from `main.go` line 86. -/
abbrev GeoZone : Type := List GeoZoneItem

/-- `TripLeg` from `main.go` lines 88-94 (the unused `startTime` and
`endTime` fields are omitted). -/
structure TripLeg where
  startLocation : Location
  endLocation : Location
  pauseMinutes : ℤ

/-- `Journey` from `main.go` lines 96-98. -/
structure Journey where
  legs : List TripLeg

/-- `CostBreakdown` from `main.go` lines 108-114. -/
structure CostBreakdown where
  unlockFee : ℝ
  bookingCost : ℝ
  travelCost : ℝ
  pauseCost : ℝ
  walkingTime : ℝ

/-- `JourneyPlan` from `main.go` lines 100-106. -/
structure JourneyPlan where
  vehicle : Vehicle
  journey : Journey
  totalCost : ℝ
  costBreakdown : CostBreakdown
  pricingModel : String

/-- Constant from `main.go` line 117. -/
def walkingSpeedKmh : ℝ := 5.0

/-- Constant from `main.go` line 118. -/
def drivingSpeedKmh : ℝ := 25.0

/-- Constant from `main.go` line 119. -/
def freeBookingMinutes : ℝ := 15

/-- Constant from `main.go` line 120. -/
def priceUnitFactor : ℝ := 1000.0

/-- Go's `math.Atan2(y, x)` for finite real inputs (the signed-zero and
non-finite cases of the float implementation do not arise in the
real-number model). -/
def atan2 (y x : ℝ) : ℝ :=
  if 0 < x then Real.arctan (y / x)
  else if x < 0 then
    (if 0 ≤ y then Real.arctan (y / x) + Real.pi
     else Real.arctan (y / x) - Real.pi)
  else if 0 < y then Real.pi / 2
  else if y < 0 then -(Real.pi / 2)
  else 0

/-- `calculateDistance` from `main.go` lines 263-276: haversine great-circle
distance with Earth radius 6371 km. -/
def calculateDistance (lat1 lng1 lat2 lng2 : ℝ) : ℝ :=
  let R : ℝ := 6371
  let dLat := (lat2 - lat1) * Real.pi / 180
  let dLng := (lng2 - lng1) * Real.pi / 180
  let a := Real.sin (dLat / 2) * Real.sin (dLat / 2) +
    Real.cos (lat1 * Real.pi / 180) * Real.cos (lat2 * Real.pi / 180) *
      Real.sin (dLng / 2) * Real.sin (dLng / 2)
  let c := 2 * atan2 (Real.sqrt a) (Real.sqrt (1 - a))
  R * c

/-- The switch of `main.go` lines 287-298: does a geometry contain a point
(a multi-polygon contains it when one of its sub-polygons does; other
geometry types never match). -/
def geomContains (geometry : OrbGeom) (point : Point) : Bool :=
  match geometry with
  | OrbGeom.polygon poly => polygonContains poly point
  | OrbGeom.multiPolygon polys => polys.any fun poly => polygonContains poly point
  | OrbGeom.other => false

/-- `isInParkingZone` from `main.go` lines 278-303: false for a nil
geozone; otherwise true when some item tagged `"parking"` with model type
`"car"` has a geometry containing the point `(lng, lat)`. -/
def isInParkingZone (location : Location) (geozone : Option GeoZone) : Bool :=
  match geozone with
  | none => false
  | some zone =>
    let point : Point := (location.lng, location.lat)
    zone.any fun item =>
      item.geofencingType == "parking" && item.modelType == "car" &&
        geomContains item.geom.geometry point

/-- The distance computed per fleet member inside `findClosestVehicle`
(`main.go` lines 315-318). -/
def vehicleDistance (location : Location) (vehicle : Vehicle) : ℝ :=
  calculateDistance location.lat location.lng
    vehicle.locationLatitude vehicle.locationLongitude

/-- `findClosestVehicle` from `main.go` lines 305-326. The Go loop seeds
`minDistance` with `+Inf`, so in the real-number model the first vehicle
always becomes the initial closest; the remaining scan keeps the running
closest and replaces it only on a strictly smaller distance. -/
def findClosestVehicle (location : Location) (vehicles : List Vehicle) :
    Option Vehicle :=
  match vehicles with
  | [] => none
  | v :: rest =>
    some (rest.foldl
      (fun closest candidate =>
        if vehicleDistance location candidate < vehicleDistance location closest
        then candidate else closest)
      v)

/-- `vehicleToLocation` from `main.go` lines 328-333. -/
def vehicleToLocation (vehicle : Vehicle) : Location :=
  { lat := vehicle.locationLatitude, lng := vehicle.locationLongitude }

/-- `calculateWalkingTime` from `main.go` lines 335-344. -/
def calculateWalkingTime (fromLocation toLocation : Location) : ℝ :=
  let distance := calculateDistance fromLocation.lat fromLocation.lng
    toLocation.lat toLocation.lng
  distance / walkingSpeedKmh * 60

/-- `calculateDrivingTime` from `main.go` lines 346-355. -/
def calculateDrivingTime (fromLocation toLocation : Location) : ℝ :=
  let distance := calculateDistance fromLocation.lat fromLocation.lng
    toLocation.lat toLocation.lng
  distance / drivingSpeedKmh * 60

/-- The accumulator of the per-leg loop of `calculateCostForModel`
(`main.go` lines 428-434 and 441). -/
structure LegAccum where
  currentLocation : Location
  totalBookingMinutes : ℝ
  totalTravelMinutes : ℝ
  totalPauseMinutes : ℝ
  totalDistanceKm : ℝ

/-- One iteration of the per-leg loop of `calculateCostForModel`
(`main.go` lines 443-471): walking time to the leg start is added to the
booking minutes, driving time to the travel minutes, great-circle distance
to the distance total; a positive pause is added unweighted when the leg
ends inside a parking zone and weighted by 1.5 otherwise; the current
position advances to the leg end. -/
def legStep (geozone : Option GeoZone) (acc : LegAccum) (leg : TripLeg) :
    LegAccum :=
  let walkToVehicleTime := calculateWalkingTime acc.currentLocation leg.startLocation
  let drivingTime := calculateDrivingTime leg.startLocation leg.endLocation
  let distance := calculateDistance leg.startLocation.lat leg.startLocation.lng
    leg.endLocation.lat leg.endLocation.lng
  let pauseAdd : ℝ :=
    if leg.pauseMinutes > 0 then
      (if isInParkingZone leg.endLocation geozone then (leg.pauseMinutes : ℝ)
       else (leg.pauseMinutes : ℝ) * 1.5)
    else 0
  { currentLocation := leg.endLocation
    totalBookingMinutes := acc.totalBookingMinutes + walkToVehicleTime
    totalTravelMinutes := acc.totalTravelMinutes + drivingTime
    totalPauseMinutes := acc.totalPauseMinutes + pauseAdd
    totalDistanceKm := acc.totalDistanceKm + distance }

/-- The initial state of the per-leg loop: all totals zero and the current
position at the vehicle (`main.go` lines 428-441). -/
def initAccum (vehicle : Vehicle) : LegAccum :=
  { currentLocation := vehicleToLocation vehicle
    totalBookingMinutes := 0
    totalTravelMinutes := 0
    totalPauseMinutes := 0
    totalDistanceKm := 0 }

/-- The totals accumulated by the per-leg loop of `calculateCostForModel`
(`main.go` lines 443-471). -/
def journeyTotals (journey : Journey) (vehicle : Vehicle)
    (geozone : Option GeoZone) : LegAccum :=
  journey.legs.foldl (legStep geozone) (initAccum vehicle)

/-- The unlock fee of `main.go` line 425. -/
def unlockFeeOf (pricing : PricingModel) : ℝ :=
  (pricing.unlockFee : ℝ) / priceUnitFactor

/-- The booking cost of `main.go` lines 478-484: booking minutes beyond
the free 15 are charged at the booking unit price. -/
def bookingCostOf (pricing : PricingModel) (totalBookingMinutes : ℝ) : ℝ :=
  max 0 (totalBookingMinutes - freeBookingMinutes) *
    (pricing.bookUnitPrice : ℝ) / priceUnitFactor

/-- The travel cost switch of `main.go` lines 486-507, keyed on the fare
discriminator `pricing.type`; an unmatched discriminator leaves the travel
cost at its zero initialisation. -/
def travelCostOf (pricing : PricingModel)
    (totalTravelMinutes totalDistanceKm : ℝ) : ℝ :=
  if pricing.type = "minute" then
    totalTravelMinutes * (pricing.minutePrice : ℝ) / priceUnitFactor
  else if pricing.type = "kilometer" then
    max 0 (totalDistanceKm - (pricing.includedKilometers : ℝ)) *
      (pricing.kilometerPrice : ℝ) / priceUnitFactor
  else if pricing.type = "smart" then
    totalTravelMinutes * (pricing.minutePrice : ℝ) / priceUnitFactor +
      max 0 (totalDistanceKm - (pricing.includedKilometers : ℝ)) *
        (pricing.kilometerPrice : ℝ) / priceUnitFactor
  else 0

/-- The pause cost of `main.go` lines 509-511. -/
def pauseCostOf (pricing : PricingModel) (totalPauseMinutes : ℝ) : ℝ :=
  totalPauseMinutes * (pricing.pauseUnitPrice : ℝ) / priceUnitFactor

/-- The day cap of `main.go` line 515. -/
def dayCapOf (pricing : PricingModel) : ℝ :=
  (pricing.dayCapPrice : ℝ) / priceUnitFactor

/-- The uncapped total of `main.go` line 513: unlock fee + booking cost +
travel cost + pause cost. -/
def uncappedTotalCost (journey : Journey) (vehicle : Vehicle)
    (pricing : PricingModel) (geozone : Option GeoZone) : ℝ :=
  unlockFeeOf pricing +
    bookingCostOf pricing (journeyTotals journey vehicle geozone).totalBookingMinutes +
    travelCostOf pricing (journeyTotals journey vehicle geozone).totalTravelMinutes
      (journeyTotals journey vehicle geozone).totalDistanceKm +
    pauseCostOf pricing (journeyTotals journey vehicle geozone).totalPauseMinutes

/-- `calculateCostForModel` from `main.go` lines 412-527: nil for an empty
journey; nil when a geozone is present and the final leg end is not in a
parking zone; otherwise a plan whose breakdown holds the uncapped unlock,
booking, travel and pause costs and whose total is clamped to the day cap. -/
def calculateCostForModel (journey : Journey) (vehicle : Vehicle)
    (pricing : PricingModel) (modelName : String)
    (geozone : Option GeoZone) : Option JourneyPlan :=
  match journey.legs with
  | [] => none
  | firstLeg :: restLegs =>
    let acc := journeyTotals journey vehicle geozone
    let finalLocation :=
      ((firstLeg :: restLegs).getLast (List.cons_ne_nil firstLeg restLegs)).endLocation
    if geozone.isSome && !(isInParkingZone finalLocation geozone) then none
    else
      let totalBeforeCap := unlockFeeOf pricing +
        bookingCostOf pricing acc.totalBookingMinutes +
        travelCostOf pricing acc.totalTravelMinutes acc.totalDistanceKm +
        pauseCostOf pricing acc.totalPauseMinutes
      some
        { vehicle := vehicle
          journey := journey
          totalCost :=
            if totalBeforeCap > dayCapOf pricing then dayCapOf pricing
            else totalBeforeCap
          costBreakdown :=
            { unlockFee := unlockFeeOf pricing
              bookingCost := bookingCostOf pricing acc.totalBookingMinutes
              travelCost := travelCostOf pricing acc.totalTravelMinutes acc.totalDistanceKm
              pauseCost := pauseCostOf pricing acc.totalPauseMinutes
              walkingTime := calculateWalkingTime firstLeg.startLocation
                (vehicleToLocation vehicle) }
          pricingModel := modelName }

/-- `calculateCost` from `main.go` lines 357-410: evaluate the per-minute,
per-kilometer and smart models in that order, collect the non-nil plans,
fail when none remain, and otherwise keep the plan with the strictly
smallest total cost (the first seen wins ties). -/
def calculateCost (journey : Journey) (vehicle : Vehicle)
    (pricing : PricingResponse) (geozone : Option GeoZone) :
    Except String JourneyPlan :=
  let plans :=
    (calculateCostForModel journey vehicle pricing.pricingPerMinute
      "per-minute" geozone).toList ++
    (calculateCostForModel journey vehicle pricing.pricingPerKilometer
      "per-kilometer" geozone).toList ++
    (calculateCostForModel journey vehicle pricing.smartPricing
      "smart" geozone).toList
  match plans with
  | [] => Except.error "[calculateCost] no valid pricing plans found"
  | first :: rest =>
    Except.ok (rest.foldl
      (fun cheapest plan =>
        if plan.totalCost < cheapest.totalCost then plan else cheapest)
      first)

/-- Specification-side device: the first element of a list attaining the
minimum of a real-valued measure (the spec's "lowest, first-seen wins
ties"), used to state what the source's strict-minimum scans compute. -/
def firstMinBy {α : Type} (f : α → ℝ) : List α → Option α
  | [] => none
  | a :: rest =>
    match firstMinBy f rest with
    | none => some a
    | some w => if f w < f a then some w else some a

/-- Modelled from the spec: section 4.2 describes `isInParkingZone(point,
geozone, vehicleModelType)` as matching zone items whose model type equals
the given vehicle model type; the source instead hardcodes the model type
`"car"`. This definition follows the spec's wording. -/
def inParkingZoneForModelType (location : Location) (zone : GeoZone)
    (modelType : String) : Bool :=
  let point : Point := (location.lng, location.lat)
  zone.any fun item =>
    item.geofencingType == "parking" && item.modelType == modelType &&
      geomContains item.geom.geometry point

/-- The pause minutes one leg contributes to the pause total (`main.go`
lines 461-468): nothing for a non-positive pause, the pause unweighted
when the leg ends inside a parking zone, and the pause times 1.5
otherwise. -/
def pauseCharge (geozone : Option GeoZone) (leg : TripLeg) : ℝ :=
  if leg.pauseMinutes > 0 then
    (if isInParkingZone leg.endLocation geozone then (leg.pauseMinutes : ℝ)
     else (leg.pauseMinutes : ℝ) * 1.5)
  else 0

/-- Specification-side device for the Plan Optimizer: evaluate the three
models in order, and return the first-seen cheapest non-absent plan, or
the aggregate error when every model is absent. -/
def optimizeSpec (journey : Journey) (vehicle : Vehicle)
    (pricing : PricingResponse) (geozone : Option GeoZone) :
    Except String JourneyPlan :=
  match firstMinBy JourneyPlan.totalCost
      ((calculateCostForModel journey vehicle pricing.pricingPerMinute
        "per-minute" geozone).toList ++
      (calculateCostForModel journey vehicle pricing.pricingPerKilometer
        "per-kilometer" geozone).toList ++
      (calculateCostForModel journey vehicle pricing.smartPricing
        "smart" geozone).toList) with
  | none => Except.error "[calculateCost] no valid pricing plans found"
  | some plan => Except.ok plan

/-- A fixed point used by concrete evaluations. -/
def locP : Location := { lat := 50, lng := 4 }

/-- A leg that starts, ends and pauses at `locP` for 10 minutes. -/
def legSame : TripLeg :=
  { startLocation := locP, endLocation := locP, pauseMinutes := 10 }

/-- A one-leg journey staying at `locP`. -/
def jSame : Journey := { legs := [legSame] }

/-- A car model. -/
def modelCar : Model :=
  { type := "car", make := "mk", name := "nm", energy := "petrol", tier := "m" }

/-- A car parked exactly at `locP`. -/
def vSame : Vehicle :=
  { uuid := "v1", plate := "AAA-1", locationLatitude := 50, locationLongitude := 4
    model := modelCar, autonomy := 0, autonomyPercentage := 0, discountAmount := 0
    pictureURL := "", isElligibleForFueling := false
    isElligibleForCharging := false, fuelingReward := 0, chargingReward := 0 }

/-- A per-minute tariff with a binding day cap of 10. -/
def pMinute : PricingModel :=
  { uuid := "p1", tier := "m", modelType := "car", unlockFee := 2000
    minutePrice := 500, pauseUnitPrice := 1000, kilometerPrice := 3000
    bookUnitPrice := 100, hourCapPrice := 0, dayCapPrice := 10000
    includedKilometers := 0, type := "minute", moveUnitPrice := 0
    overKilometerPrice := 0 }

/-- A per-kilometer tariff. -/
def pKilometer : PricingModel :=
  { uuid := "p2", tier := "m", modelType := "car", unlockFee := 2000
    minutePrice := 500, pauseUnitPrice := 1000, kilometerPrice := 3000
    bookUnitPrice := 100, hourCapPrice := 0, dayCapPrice := 10000
    includedKilometers := 0, type := "kilometer", moveUnitPrice := 0
    overKilometerPrice := 0 }

/-- A smart tariff with a non-binding day cap of 100. -/
def pSmart : PricingModel :=
  { uuid := "p3", tier := "m", modelType := "car", unlockFee := 2000
    minutePrice := 500, pauseUnitPrice := 1000, kilometerPrice := 3000
    bookUnitPrice := 100, hourCapPrice := 0, dayCapPrice := 100000
    includedKilometers := 0, type := "smart", moveUnitPrice := 0
    overKilometerPrice := 0 }

/-- A pricing offer set combining the three concrete tariffs. -/
def prSame : PricingResponse :=
  { pricingPerMinute := pMinute, pricingPerKilometer := pKilometer
    smartPricing := pSmart }

/-- The plan the evaluator returns for `jSame`, `vSame`, `pMinute` and an
absent geozone: uncapped total 2 + 0 + 0 + 15 = 17, capped to 10. -/
def planSame : JourneyPlan :=
  { vehicle := vSame, journey := jSame, totalCost := 10
    costBreakdown :=
      { unlockFee := 2, bookingCost := 0, travelCost := 0, pauseCost := 15
        walkingTime := 0 }
    pricingModel := "per-minute" }

/-- The plan the evaluator returns for `jSame`, `vSame`, `pSmart` and an
absent geozone: uncapped total 17, below the cap of 100. -/
def planSmart : JourneyPlan :=
  { vehicle := vSame, journey := jSame, totalCost := 17
    costBreakdown :=
      { unlockFee := 2, bookingCost := 0, travelCost := 0, pauseCost := 15
        walkingTime := 0 }
    pricingModel := "smart" }

/-- A point with longitude 1 (outside `polyWest`). -/
def locA : Location := { lat := 0, lng := 1 }

/-- A point with longitude -1 (inside `polyWest`). -/
def locB : Location := { lat := 0, lng := -1 }

/-- A polygon containing every point. -/
def polyAll : Polygon := { contains := fun _ => true }

/-- A polygon containing exactly the points of negative longitude. -/
def polyWest : Polygon := { contains := fun p => decide (p.1 < 0) }

/-- A parking zone item for scooters covering everything. -/
def itemScooter : GeoZoneItem :=
  { geofencingType := "parking", modelType := "scooter"
    geom := { type := "Feature", geometry := OrbGeom.polygon polyAll } }

/-- A parking zone item for cars covering the negative-longitude half. -/
def itemCar : GeoZoneItem :=
  { geofencingType := "parking", modelType := "car"
    geom := { type := "Feature", geometry := OrbGeom.polygon polyWest } }

/-- A geozone with a scooter parking zone everywhere and a car parking
zone only at negative longitudes. -/
def zoneMixed : GeoZone := [itemScooter, itemCar]

/-- A scooter vehicle at `locA`. -/
def vScooter : Vehicle :=
  { uuid := "v2", plate := "BBB-2", locationLatitude := 0, locationLongitude := 1
    model := { type := "scooter", make := "mk", name := "nm", energy := "el", tier := "m" }
    autonomy := 0, autonomyPercentage := 0, discountAmount := 0
    pictureURL := "", isElligibleForFueling := false
    isElligibleForCharging := false, fuelingReward := 0, chargingReward := 0 }

/-- A leg pausing 10 minutes at `locA`. -/
def legPauseA : TripLeg :=
  { startLocation := locA, endLocation := locA, pauseMinutes := 10 }

/-- A leg from `locA` to `locB` without pause. -/
def legToB : TripLeg :=
  { startLocation := locA, endLocation := locB, pauseMinutes := 0 }

/-- A two-leg journey pausing at `locA` and ending at `locB`. -/
def jMixed : Journey := { legs := [legPauseA, legToB] }

/-- Swapping the two coordinates whose difference is taken negates the
sine of the half-angle. -/
lemma sin_deg_swap (x y : ℝ) :
    Real.sin ((x - y) * Real.pi / 180 / 2) = -Real.sin ((y - x) * Real.pi / 180 / 2) := by
  have h : (x - y) * Real.pi / 180 / 2 = -((y - x) * Real.pi / 180 / 2) := by ring
  rw [h, Real.sin_neg]

/-- The haversine distance is symmetric in its two coordinates. -/
lemma calculateDistance_comm (lat1 lng1 lat2 lng2 : ℝ) :
    calculateDistance lat1 lng1 lat2 lng2 = calculateDistance lat2 lng2 lat1 lng1 := by
  have ha :
      Real.sin ((lat2 - lat1) * Real.pi / 180 / 2) * Real.sin ((lat2 - lat1) * Real.pi / 180 / 2) +
        Real.cos (lat1 * Real.pi / 180) * Real.cos (lat2 * Real.pi / 180) *
          Real.sin ((lng2 - lng1) * Real.pi / 180 / 2) *
          Real.sin ((lng2 - lng1) * Real.pi / 180 / 2) =
      Real.sin ((lat1 - lat2) * Real.pi / 180 / 2) * Real.sin ((lat1 - lat2) * Real.pi / 180 / 2) +
        Real.cos (lat2 * Real.pi / 180) * Real.cos (lat1 * Real.pi / 180) *
          Real.sin ((lng1 - lng2) * Real.pi / 180 / 2) *
          Real.sin ((lng1 - lng2) * Real.pi / 180 / 2) := by
    rw [sin_deg_swap lat2 lat1, sin_deg_swap lng2 lng1]
    ring
  simp only [calculateDistance]
  rw [ha]

/-- The haversine distance from a point to itself is zero. -/
lemma calculateDistance_self (lat lng : ℝ) :
    calculateDistance lat lng lat lng = 0 := by
  simp only [calculateDistance]
  have h1 : (lat - lat) * Real.pi / 180 / 2 = 0 := by ring
  have h2 : (lng - lng) * Real.pi / 180 / 2 = 0 := by ring
  rw [h1, h2, Real.sin_zero]
  norm_num [atan2, Real.arctan_zero]

/-- `firstMinBy` returns an element of its input list. -/
lemma firstMinBy_mem {α : Type} (f : α → ℝ) :
    ∀ (l : List α) (w : α), firstMinBy f l = some w → w ∈ l := by
  intro l
  induction l with
  | nil => intro w h; simp [firstMinBy] at h
  | cons a rest ih =>
    intro w h
    cases hr : firstMinBy f rest with
    | none =>
      simp only [firstMinBy, hr, Option.some.injEq] at h
      subst h
      exact List.mem_cons_self a rest
    | some u =>
      simp only [firstMinBy, hr] at h
      by_cases hc : f u < f a
      · rw [if_pos hc, Option.some.injEq] at h
        subst h
        exact List.mem_cons_of_mem a (ih _ hr)
      · rw [if_neg hc, Option.some.injEq] at h
        subst h
        exact List.mem_cons_self a rest

/-- `firstMinBy` never returns `none` on a non-empty list. -/
lemma firstMinBy_cons_ne_none {α : Type} (f : α → ℝ) (a : α) (rest : List α) :
    firstMinBy f (a :: rest) ≠ none := by
  simp only [firstMinBy]
  cases hr : firstMinBy f rest with
  | none => simp
  | some w => by_cases hc : f w < f a <;> simp [hc]

/-- `firstMinBy` returns an element of minimal measure. -/
lemma firstMinBy_le {α : Type} (f : α → ℝ) :
    ∀ (l : List α) (w : α), firstMinBy f l = some w → ∀ u ∈ l, f w ≤ f u := by
  intro l
  induction l with
  | nil => intro w h; simp [firstMinBy] at h
  | cons a rest ih =>
    intro w h u hu
    cases hr : firstMinBy f rest with
    | none =>
      cases rest with
      | nil =>
        simp only [firstMinBy, Option.some.injEq] at h
        subst h
        rcases List.mem_singleton.mp hu with rfl
        exact le_refl _
      | cons b l2 => exact absurd hr (firstMinBy_cons_ne_none f b l2)
    | some v =>
      simp only [firstMinBy, hr] at h
      rcases List.mem_cons.mp hu with rfl | hu2
      · by_cases hc : f v < f u
        · rw [if_pos hc, Option.some.injEq] at h
          subst h
          exact le_of_lt hc
        · rw [if_neg hc, Option.some.injEq] at h
          subst h
          exact le_refl _
      · by_cases hc : f v < f a
        · rw [if_pos hc, Option.some.injEq] at h
          subst h
          exact ih _ hr u hu2
        · rw [if_neg hc, Option.some.injEq] at h
          subst h
          exact le_trans (not_lt.mp hc) (ih _ hr u hu2)

/-- The strict-minimum left fold of the source equals a fold-free
first-minimum selection. -/
lemma foldl_min_eq_firstMinBy {α : Type} (f : α → ℝ) (l : List α) (b : α) :
    l.foldl (fun best c => if f c < f best then c else best) b =
      match firstMinBy f l with
      | none => b
      | some w => if f w < f b then w else b := by
  induction l generalizing b with
  | nil => rfl
  | cons v rest ih =>
    rw [List.foldl_cons, ih]
    cases hr : firstMinBy f rest with
    | none =>
      simp only [firstMinBy, hr]
    | some w =>
      simp only [firstMinBy, hr]
      by_cases h1 : f w < f v
      · simp only [if_pos h1]
        by_cases h2 : f v < f b
        · simp only [if_pos h2, if_pos h1, if_pos (lt_trans h1 h2)]
        · simp only [if_neg h2]
      · simp only [if_neg h1]
        by_cases h2 : f v < f b
        · simp only [if_pos h2, if_neg h1]
        · simp only [if_neg h2,
            if_neg (fun hwb => h2 (lt_of_le_of_lt (not_lt.mp h1) hwb))]

/-- `findClosestVehicle` computes the first-minimum of the vehicle
distances. -/
lemma findClosestVehicle_eq_firstMinBy (location : Location)
    (vehicles : List Vehicle) :
    findClosestVehicle location vehicles =
      firstMinBy (vehicleDistance location) vehicles := by
  cases vehicles with
  | nil => rfl
  | cons v rest =>
    simp only [findClosestVehicle,
      foldl_min_eq_firstMinBy (vehicleDistance location) rest v]
    cases hr : firstMinBy (vehicleDistance location) rest with
    | none => simp only [firstMinBy, hr]
    | some w =>
      simp only [firstMinBy, hr]
      by_cases h1 : vehicleDistance location w < vehicleDistance location v
      · simp only [if_pos h1]
      · simp only [if_neg h1]

/-- C8 counterexample: the claim "distance is zero only for identical
coordinates" fails at the north pole: the distinct coordinate pairs
(90, 0) and (90, 180) are at haversine distance exactly 0, because
cos(90 degrees) = 0 wipes out the longitude term. -/
theorem c8_counterexample_zero_at_distinct_points :
    calculateDistance 90 0 90 180 = 0 ∧ (0 : ℝ) ≠ 180 := by
  constructor
  · simp only [calculateDistance]
    have h1 : ((90 : ℝ) - 90) * Real.pi / 180 / 2 = 0 := by ring
    have hc : (90 : ℝ) * Real.pi / 180 = Real.pi / 2 := by ring
    rw [h1, Real.sin_zero, hc, Real.cos_pi_div_two]
    norm_num [atan2, Real.arctan_zero]
  · norm_num

/-- C8 (amended): `calculateDistance` is symmetric, and the distance from
any coordinate pair to itself is zero; zero distance does not imply
identical coordinates (see the counterexample), and NaN does not arise in
the real-number model. -/
theorem c8_distance_symm_and_self_zero :
    (∀ lat1 lng1 lat2 lng2 : ℝ,
      calculateDistance lat1 lng1 lat2 lng2 = calculateDistance lat2 lng2 lat1 lng1) ∧
    (∀ lat lng : ℝ, calculateDistance lat lng lat lng = 0) :=
  ⟨calculateDistance_comm, calculateDistance_self⟩

/-- C3: the Plan Optimizer `calculateCost` evaluates the per-minute,
per-kilometer and smart models in that order, returns the first-seen
non-absent plan of lowest total cost, and returns the aggregate error
exactly when all three evaluations are absent — which is what
`optimizeSpec` says. -/
theorem c3_optimizer_returns_first_seen_cheapest (journey : Journey)
    (vehicle : Vehicle) (pricing : PricingResponse) (geozone : Option GeoZone) :
    calculateCost journey vehicle pricing geozone =
      optimizeSpec journey vehicle pricing geozone := by
  simp only [calculateCost, optimizeSpec]
  cases hL :
    (calculateCostForModel journey vehicle pricing.pricingPerMinute
      "per-minute" geozone).toList ++
    (calculateCostForModel journey vehicle pricing.pricingPerKilometer
      "per-kilometer" geozone).toList ++
    (calculateCostForModel journey vehicle pricing.smartPricing
      "smart" geozone).toList with
  | nil => rfl
  | cons p rest =>
    simp only [foldl_min_eq_firstMinBy JourneyPlan.totalCost rest p]
    cases hr : firstMinBy JourneyPlan.totalCost rest with
    | none => simp only [firstMinBy, hr]
    | some w =>
      simp only [firstMinBy, hr]
      by_cases h1 : w.totalCost < p.totalCost
      · simp only [if_pos h1]
      · simp only [if_neg h1]

/-- C7: over an empty fleet `findClosestVehicle` returns absent, and over
any fleet it returns the first-occurring fleet member of strictly minimal
haversine distance to the query point (ties keep the earlier vehicle,
since only a strictly smaller distance replaces the running closest); any
returned vehicle belongs to the fleet and minimises the distance. The
embedding is a pure function, so the input fleet is never mutated. -/
theorem c7_findClosestVehicle_spec :
    (∀ (location : Location) (vehicles : List Vehicle),
      findClosestVehicle location vehicles =
        firstMinBy (vehicleDistance location) vehicles) ∧
    (∀ (location : Location) (vehicles : List Vehicle) (w : Vehicle),
      findClosestVehicle location vehicles = some w →
        w ∈ vehicles ∧
          ∀ u ∈ vehicles, vehicleDistance location w ≤ vehicleDistance location u) := by
  refine ⟨findClosestVehicle_eq_firstMinBy, ?_⟩
  intro location vehicles w h
  rw [findClosestVehicle_eq_firstMinBy] at h
  exact ⟨firstMinBy_mem _ _ _ h, firstMinBy_le _ _ _ h⟩

/-- C7 witness: instantiated on the one-vehicle fleet `[vSame]` at `locP`,
where `findClosestVehicle` evaluates (by `rfl`) to `some vSame`. -/
theorem c7_witness : vSame ∈ [vSame] :=
  (c7_findClosestVehicle_spec.2 locP [vSame] vSame rfl).1

/-- The pause total of the per-leg fold is the initial total plus the sum
of the per-leg pause charges. -/
lemma foldl_totalPause (geozone : Option GeoZone) (legs : List TripLeg)
    (acc : LegAccum) :
    (legs.foldl (legStep geozone) acc).totalPauseMinutes =
      acc.totalPauseMinutes + (legs.map (pauseCharge geozone)).sum := by
  induction legs generalizing acc with
  | nil => simp
  | cons leg rest ih =>
    rw [List.foldl_cons, ih]
    simp only [List.map_cons, List.sum_cons, legStep, pauseCharge]
    ring

/-- C6 (amended): the parking-membership test matches zone items of model
type `"car"` regardless of the vehicle (the source hardcodes `"car"`), and
the pause total accumulated by the Pricing Evaluator is the sum over the
legs of: nothing for pause at most 0, the pause unweighted when the leg
end is inside a (car) parking zone, and pause times 1.5 otherwise. -/
theorem c6_pause_accumulation_uses_car_zones :
    (∀ (location : Location) (zone : GeoZone),
      isInParkingZone location (some zone) =
        inParkingZoneForModelType location zone "car") ∧
    (∀ (journey : Journey) (vehicle : Vehicle) (geozone : Option GeoZone),
      (journeyTotals journey vehicle geozone).totalPauseMinutes =
        (journey.legs.map (pauseCharge geozone)).sum) := by
  constructor
  · intro location zone
    rfl
  · intro journey vehicle geozone
    simp [journeyTotals, foldl_totalPause, initAccum]

/-- `polyWest` does not contain the point of longitude 1. -/
lemma polyWest_east_false : polygonContains polyWest ((1 : ℝ), (0 : ℝ)) = false := by
  show decide ((1 : ℝ) < 0) = false
  exact decide_eq_false (by norm_num)

/-- `polyWest` contains the point of longitude -1. -/
lemma polyWest_west_true : polygonContains polyWest ((-1 : ℝ), (0 : ℝ)) = true := by
  show decide ((-1 : ℝ) < 0) = true
  exact decide_eq_true (by norm_num)

/-- `locA` is in no car parking zone of `zoneMixed`. -/
lemma isInParkingZone_locA_false :
    isInParkingZone locA (some zoneMixed) = false := by
  have h1 : (("scooter" : String) == "car") = false := by decide
  simp [isInParkingZone, zoneMixed, itemScooter, itemCar, geomContains,
    polygonContains, polyAll, polyWest, locA, h1]

/-- `locB` is in a car parking zone of `zoneMixed`. -/
lemma isInParkingZone_locB_true :
    isInParkingZone locB (some zoneMixed) = true := by
  have h1 : (("scooter" : String) == "car") = false := by decide
  simp [isInParkingZone, zoneMixed, itemScooter, itemCar, geomContains,
    polygonContains, polyAll, polyWest, locB, h1]

/-- `locA` is in a scooter parking zone of `zoneMixed`. -/
lemma inParkingZone_scooter_locA :
    inParkingZoneForModelType locA zoneMixed "scooter" = true := by
  simp [inParkingZoneForModelType, zoneMixed, itemScooter, geomContains,
    polygonContains, polyAll, locA]

/-- C6 counterexample: the claim says a positive pause is added unweighted
when the leg end is inside a parking zone "for the vehicle's model type".
For the scooter vehicle `vScooter`, the accepted two-leg journey `jMixed`
pauses 10 minutes at `locA`, which lies inside a parking zone for model
type "scooter" (the vehicle's type); yet the evaluator charges 10 * 1.5 =
15 pause minutes, because `isInParkingZone` tests only `"car"` zones. -/
theorem c6_counterexample_model_type_ignored :
    inParkingZoneForModelType locA zoneMixed vScooter.model.type = true ∧
    (calculateCostForModel jMixed vScooter pMinute "per-minute"
      (some zoneMixed)).isSome = true ∧
    (journeyTotals jMixed vScooter (some zoneMixed)).totalPauseMinutes = 15 ∧
    (15 : ℝ) ≠ 10 := by
  refine ⟨inParkingZone_scooter_locA, ?_, ?_, by norm_num⟩
  · have hB : isInParkingZone legToB.endLocation (some zoneMixed) = true :=
      isInParkingZone_locB_true
    simp [calculateCostForModel, jMixed, hB]
  · simp only [journeyTotals, foldl_totalPause, initAccum, jMixed,
      List.map_cons, List.map_nil, List.sum_cons, List.sum_nil, pauseCharge,
      legPauseA, legToB, isInParkingZone_locA_false]
    norm_num

/-- C9: without geozone data parking membership is always false, so the
Pricing Evaluator charges every positive pause at 1.5 times its minutes
(and pauses at most 0 contribute nothing). -/
theorem c9_nil_geozone_penalizes_all_pauses :
    (∀ location : Location, isInParkingZone location none = false) ∧
    (∀ (journey : Journey) (vehicle : Vehicle),
      (journeyTotals journey vehicle none).totalPauseMinutes =
        (journey.legs.map (fun leg =>
          if leg.pauseMinutes > 0 then (leg.pauseMinutes : ℝ) * 1.5 else 0)).sum) := by
  constructor
  · intro location
    rfl
  · intro journey vehicle
    have hfun : pauseCharge none = fun leg : TripLeg =>
        (if leg.pauseMinutes > 0 then (leg.pauseMinutes : ℝ) * 1.5 else 0) := by
      funext leg
      simp [pauseCharge, isInParkingZone]
    simp only [journeyTotals, foldl_totalPause, initAccum, hfun, zero_add]

/-- Characterisation of a successful evaluation: the plan's total is the
day-cap clamp of the uncapped sum, and the breakdown fields are the
uncapped unlock, booking, travel and pause costs. -/
lemma calculateCostForModel_some_spec (journey : Journey) (vehicle : Vehicle)
    (pricing : PricingModel) (modelName : String) (geozone : Option GeoZone)
    (plan : JourneyPlan)
    (h : calculateCostForModel journey vehicle pricing modelName geozone = some plan) :
    plan.totalCost =
      (if uncappedTotalCost journey vehicle pricing geozone > dayCapOf pricing
       then dayCapOf pricing
       else uncappedTotalCost journey vehicle pricing geozone) ∧
    plan.costBreakdown.unlockFee = unlockFeeOf pricing ∧
    plan.costBreakdown.bookingCost =
      bookingCostOf pricing (journeyTotals journey vehicle geozone).totalBookingMinutes ∧
    plan.costBreakdown.travelCost =
      travelCostOf pricing (journeyTotals journey vehicle geozone).totalTravelMinutes
        (journeyTotals journey vehicle geozone).totalDistanceKm ∧
    plan.costBreakdown.pauseCost =
      pauseCostOf pricing (journeyTotals journey vehicle geozone).totalPauseMinutes := by
  obtain ⟨legs⟩ := journey
  cases legs with
  | nil => simp [calculateCostForModel] at h
  | cons firstLeg restLegs =>
    simp only [calculateCostForModel] at h
    by_cases hg : (Option.isSome geozone &&
        !(isInParkingZone ((firstLeg :: restLegs).getLast
          (List.cons_ne_nil firstLeg restLegs)).endLocation geozone)) = true
    · rw [if_pos hg] at h
      exact Option.noConfusion h
    · rw [if_neg hg, Option.some.injEq] at h
      subst h
      exact ⟨rfl, rfl, rfl, rfl, rfl⟩

/-- C1 (amended): with an absent (nil) geozone the Pricing Evaluator
returns a plan for every non-empty journey; with a present-but-empty
geozone collection, however, no point is in any parking zone, so the
final-leg check rejects every non-empty journey. -/
theorem c1_nil_geozone_accepts_empty_geozone_rejects (journey : Journey)
    (vehicle : Vehicle) (pricing : PricingModel) (modelName : String)
    (h : journey.legs ≠ []) :
    (calculateCostForModel journey vehicle pricing modelName none).isSome = true ∧
    calculateCostForModel journey vehicle pricing modelName
      (some ([] : GeoZone)) = none := by
  obtain ⟨legs⟩ := journey
  cases legs with
  | nil => exact absurd rfl h
  | cons firstLeg restLegs =>
    constructor
    · simp [calculateCostForModel, isInParkingZone]
    · simp [calculateCostForModel, isInParkingZone]

/-- C1 counterexample: the claim says a present-but-empty geozone
collection "likewise returns a plan"; in fact the evaluator rejects the
non-empty journey `jSame` outright when given the empty collection. -/
theorem c1_counterexample_empty_geozone_rejects :
    calculateCostForModel jSame vSame pMinute "per-minute"
      (some ([] : GeoZone)) = none := by
  simp [calculateCostForModel, jSame, isInParkingZone]

/-- C1 witness: the amended claim instantiated at the concrete non-empty
journey `jSame`. -/
theorem c1_witness :
    (calculateCostForModel jSame vSame pMinute "per-minute" none).isSome = true ∧
    calculateCostForModel jSame vSame pMinute "per-minute"
      (some ([] : GeoZone)) = none :=
  c1_nil_geozone_accepts_empty_geozone_rejects jSame vSame pMinute "per-minute"
    (by simp [jSame])

/-- C2: when geozone data is present and the final leg's end point is in
no parking zone, every pricing model is rejected and the Plan Optimizer
fails with the aggregate "no valid pricing plans" error. -/
theorem c2_out_of_zone_rejected_optimizer_fails (journey : Journey)
    (vehicle : Vehicle) (pricing : PricingResponse) (zone : GeoZone)
    (hne : journey.legs ≠ [])
    (hz : isInParkingZone ((journey.legs.getLast hne)).endLocation
      (some zone) = false) :
    (∀ (pm : PricingModel) (modelName : String),
      calculateCostForModel journey vehicle pm modelName (some zone) = none) ∧
    calculateCost journey vehicle pricing (some zone) =
      Except.error "[calculateCost] no valid pricing plans found" := by
  obtain ⟨legs⟩ := journey
  cases legs with
  | nil => exact absurd rfl hne
  | cons firstLeg restLegs =>
    have hrej : ∀ (pm : PricingModel) (modelName : String),
        calculateCostForModel ⟨firstLeg :: restLegs⟩ vehicle pm modelName
          (some zone) = none := by
      intro pm modelName
      have hz2 : isInParkingZone ((firstLeg :: restLegs).getLast
          (List.cons_ne_nil firstLeg restLegs)).endLocation (some zone) = false := hz
      simp [calculateCostForModel, hz2]
    refine ⟨hrej, ?_⟩
    simp [calculateCost, hrej]

/-- C2 witness: the empty geozone collection is a present geozone in which
no point, in particular not the final end point of `jSame`, is in a
parking zone, so the optimizer fails. -/
theorem c2_witness :
    calculateCost jSame vSame prSame (some ([] : GeoZone)) =
      Except.error "[calculateCost] no valid pricing plans found" :=
  (c2_out_of_zone_rejected_optimizer_fails jSame vSame prSame []
    (by simp [jSame]) rfl).2

/-- The totals of the stay-at-`locP` journey: no walking, driving or
distance, and a 15-minute penalised pause total. -/
lemma totalsSame :
    journeyTotals jSame vSame none =
      { currentLocation := locP, totalBookingMinutes := 0, totalTravelMinutes := 0
        totalPauseMinutes := 15, totalDistanceKm := 0 } := by
  simp [journeyTotals, jSame, initAccum, legStep, legSame, vSame, locP,
    vehicleToLocation, calculateWalkingTime, calculateDrivingTime,
    calculateDistance_self, isInParkingZone]
  norm_num

/-- The per-minute evaluation of the stay-at-`locP` journey. -/
lemma evalSame_eq :
    calculateCostForModel jSame vSame pMinute "per-minute" none = some planSame := by
  have hl : jSame.legs = [legSame] := rfl
  simp only [calculateCostForModel, hl]
  rw [totalsSame]
  simp [planSame, unlockFeeOf, bookingCostOf, travelCostOf, pauseCostOf,
    dayCapOf, pMinute, priceUnitFactor, freeBookingMinutes, vSame, legSame,
    locP, vehicleToLocation, calculateWalkingTime, calculateDistance_self, jSame]
  norm_num [max_def]

/-- The smart evaluation of the stay-at-`locP` journey. -/
lemma evalSmart_eq :
    calculateCostForModel jSame vSame pSmart "smart" none = some planSmart := by
  have hl : jSame.legs = [legSame] := rfl
  simp only [calculateCostForModel, hl]
  rw [totalsSame]
  simp [planSmart, unlockFeeOf, bookingCostOf, travelCostOf, pauseCostOf,
    dayCapOf, pSmart, priceUnitFactor, freeBookingMinutes, vSame, legSame,
    locP, vehicleToLocation, calculateWalkingTime, calculateDistance_self, jSame]
  norm_num [max_def]

/-- The uncapped total of the stay-at-`locP` journey under `pMinute`
exceeds the day cap: 2 + 0 + 0 + 15 = 17 > 10. -/
lemma uncappedSame_gt_cap :
    uncappedTotalCost jSame vSame pMinute none > dayCapOf pMinute := by
  simp [uncappedTotalCost, totalsSame, unlockFeeOf, bookingCostOf, travelCostOf,
    pauseCostOf, dayCapOf, pMinute, priceUnitFactor, freeBookingMinutes]
  norm_num [max_def]

/-- C4: for every accepted input the returned total cost equals the
uncapped sum (unlock + booking + travel + pause) when that sum is at most
the day cap, and equals exactly the day cap when the sum exceeds it; the
cap never increases a cheaper total. -/
theorem c4_day_cap_clamps_total (journey : Journey) (vehicle : Vehicle)
    (pricing : PricingModel) (modelName : String) (geozone : Option GeoZone)
    (plan : JourneyPlan)
    (h : calculateCostForModel journey vehicle pricing modelName geozone = some plan) :
    (uncappedTotalCost journey vehicle pricing geozone ≤ dayCapOf pricing →
      plan.totalCost = uncappedTotalCost journey vehicle pricing geozone) ∧
    (uncappedTotalCost journey vehicle pricing geozone > dayCapOf pricing →
      plan.totalCost = dayCapOf pricing) := by
  have hc := (calculateCostForModel_some_spec journey vehicle pricing modelName
    geozone plan h).1
  constructor
  · intro hle
    rw [hc, if_neg (not_lt.mpr hle)]
  · intro hgt
    rw [hc, if_pos hgt]

/-- C4 witness: under `pMinute` the stay-at-`locP` journey has uncapped
total 17 above the cap 10, so the returned total is exactly the cap. -/
theorem c4_witness : planSame.totalCost = dayCapOf pMinute :=
  (c4_day_cap_clamps_total jSame vSame pMinute "per-minute" none planSame
    evalSame_eq).2 uncappedSame_gt_cap

/-- C5: under a pricing model whose discriminator is "smart" the travel
cost of an accepted plan is the minute-rule cost plus the kilometer-rule
cost, both charged together. -/
theorem c5_smart_travel_cost_is_sum (journey : Journey) (vehicle : Vehicle)
    (pricing : PricingModel) (modelName : String) (geozone : Option GeoZone)
    (plan : JourneyPlan)
    (hs : pricing.type = "smart")
    (h : calculateCostForModel journey vehicle pricing modelName geozone = some plan) :
    plan.costBreakdown.travelCost =
      (journeyTotals journey vehicle geozone).totalTravelMinutes *
        (pricing.minutePrice : ℝ) / priceUnitFactor +
      max 0 ((journeyTotals journey vehicle geozone).totalDistanceKm -
        (pricing.includedKilometers : ℝ)) *
        (pricing.kilometerPrice : ℝ) / priceUnitFactor := by
  have hc := (calculateCostForModel_some_spec journey vehicle pricing modelName
    geozone plan h).2.2.2.1
  rw [hc]
  simp only [travelCostOf, hs]
  split_ifs with h1 h2
  · exact absurd h1 (by decide)
  · exact absurd h2 (by decide)
  · rfl

/-- C5 witness: the smart evaluation of the stay-at-`locP` journey. -/
theorem c5_witness :
    planSmart.costBreakdown.travelCost =
      (journeyTotals jSame vSame none).totalTravelMinutes *
        (pSmart.minutePrice : ℝ) / priceUnitFactor +
      max 0 ((journeyTotals jSame vSame none).totalDistanceKm -
        (pSmart.includedKilometers : ℝ)) *
        (pSmart.kilometerPrice : ℝ) / priceUnitFactor :=
  c5_smart_travel_cost_is_sum jSame vSame pSmart "smart" none planSmart rfl
    evalSmart_eq

/-- C10: the day cap is applied only to the plan's total cost: the
returned breakdown holds the uncapped unlock, booking, travel and pause
amounts, and whenever the cap binds the total is strictly below the sum of
the breakdown components. -/
theorem c10_breakdown_uncapped_cap_strict (journey : Journey) (vehicle : Vehicle)
    (pricing : PricingModel) (modelName : String) (geozone : Option GeoZone)
    (plan : JourneyPlan)
    (h : calculateCostForModel journey vehicle pricing modelName geozone = some plan) :
    plan.costBreakdown.unlockFee = unlockFeeOf pricing ∧
    plan.costBreakdown.bookingCost =
      bookingCostOf pricing (journeyTotals journey vehicle geozone).totalBookingMinutes ∧
    plan.costBreakdown.travelCost =
      travelCostOf pricing (journeyTotals journey vehicle geozone).totalTravelMinutes
        (journeyTotals journey vehicle geozone).totalDistanceKm ∧
    plan.costBreakdown.pauseCost =
      pauseCostOf pricing (journeyTotals journey vehicle geozone).totalPauseMinutes ∧
    (plan.costBreakdown.unlockFee + plan.costBreakdown.bookingCost +
        plan.costBreakdown.travelCost + plan.costBreakdown.pauseCost >
        dayCapOf pricing →
      plan.totalCost < plan.costBreakdown.unlockFee + plan.costBreakdown.bookingCost +
        plan.costBreakdown.travelCost + plan.costBreakdown.pauseCost) := by
  obtain ⟨ht, hu, hb, htr, hp⟩ := calculateCostForModel_some_spec journey vehicle
    pricing modelName geozone plan h
  refine ⟨hu, hb, htr, hp, ?_⟩
  intro hgt
  have hsum : plan.costBreakdown.unlockFee + plan.costBreakdown.bookingCost +
      plan.costBreakdown.travelCost + plan.costBreakdown.pauseCost =
      uncappedTotalCost journey vehicle pricing geozone := by
    rw [hu, hb, htr, hp]
    rfl
  rw [hsum] at hgt ⊢
  rw [ht, if_pos hgt]
  exact hgt

/-- C10 witness: for the capped plan `planSame` the total 10 is strictly
below the breakdown sum 17. -/
theorem c10_witness :
    planSame.totalCost < planSame.costBreakdown.unlockFee +
      planSame.costBreakdown.bookingCost + planSame.costBreakdown.travelCost +
      planSame.costBreakdown.pauseCost :=
  (c10_breakdown_uncapped_cap_strict jSame vSame pMinute "per-minute" none
    planSame evalSame_eq).2.2.2.2
    (by simp [planSame, dayCapOf, pMinute, priceUnitFactor]; norm_num)

end

end Poppy
